import Mathlib

/-!
Verification of the mpu6050 driver (src/mpu6050/mpu6050.py) against its
natural-language specification.

The device register file is modelled as a total map from register numbers to
byte values, `Regs := Nat → Nat` (the bus collaborator
bus.read_byte_data(address, register) returns the byte stored at register; a
write updates the map).  Python integers are arbitrary-precision, so bytes are
modelled as Nat / Int without wrap-around; Python x & ~y on nonnegative ints
is Nat.ldiff x y.  Floating point scale arithmetic is modelled over Rat: all
the scale-modifier literals of the source are exactly representable, and none
of the statements proved below depends on rounding, only on which modifier is
selected and on exact results for power-of-two divisors.

Python runtime errors raised by the power-management accessors (misspelled
class attributes, wrong call arity) are modelled explicitly: attribute lookup
on the class is a partial map from attribute names to values, and a call whose
positional argument count differs from the arity of the method raises
TypeError before the body runs.
-/

namespace mpu6050

/-- A Python value as far as the boolean-flag parameters are concerned.
The source tests flags with the identity comparisons raw is True and
raw is False, which hold only for the bool singletons, never for ints or
strings that merely compare equal or are truthy. -/
inductive PyVal where
  | pyBool : Bool → PyVal
  | pyInt : Int → PyVal
  | pyStr : String → PyVal
deriving DecidableEq

/-- Class attribute names referenced by the power-management methods, both the
ones the class defines and the misspelled ones the method bodies use. -/
inductive AttrName where
  | PWR1_DEVICE_RESET_BIT
  | PWR1_DEVICE_SLEEP_BIT
  | PWR1_CYCLE_BIT
  | PWR1_TEMP_DIS_BIT
  | PWR1_CLKSEL_BIT
  | PWR1_CLKSEL_LENGTH
  | PWR_1_SLEEP_BIT
  | PWR1_SLEEP_BIT
  | PWR_1_CYCLE_BIT
  | PWR_1_TEMP_DIS_BIT
deriving DecidableEq

/-- A Python runtime error: looking up an attribute the class does not define,
or calling a method with the wrong number of positional arguments
(typeError args arity). -/
inductive PyError where
  | attributeError : AttrName → PyError
  | typeError : Nat → Nat → PyError
deriving DecidableEq

/-- Class-level attribute table for the PWR1_* bit constants (source lines
93-98).  The names PWR_1_SLEEP_BIT, PWR1_SLEEP_BIT, PWR_1_CYCLE_BIT and
PWR_1_TEMP_DIS_BIT used by the accessor bodies are NOT defined by the class;
looking them up raises AttributeError. -/
def pwr1Attr : AttrName → Option Nat
  | AttrName.PWR1_DEVICE_RESET_BIT => some 7
  | AttrName.PWR1_DEVICE_SLEEP_BIT => some 6
  | AttrName.PWR1_CYCLE_BIT => some 5
  | AttrName.PWR1_TEMP_DIS_BIT => some 3
  | AttrName.PWR1_CLKSEL_BIT => some 2
  | AttrName.PWR1_CLKSEL_LENGTH => some 3
  | _ => none

-- Global constants of the class (source lines 62-120).
def GRAVITIY_MS2 : Rat := 980665 / 100000

def ACCEL_SCALE_MODIFIER_2G : Rat := 16384
def ACCEL_SCALE_MODIFIER_4G : Rat := 8192
def ACCEL_SCALE_MODIFIER_8G : Rat := 4096
def ACCEL_SCALE_MODIFIER_16G : Rat := 2048

def GYRO_SCALE_MODIFIER_250DEG : Rat := 131
def GYRO_SCALE_MODIFIER_500DEG : Rat := 655 / 10
def GYRO_SCALE_MODIFIER_1000DEG : Rat := 328 / 10
def GYRO_SCALE_MODIFIER_2000DEG : Rat := 164 / 10

def ACCEL_RANGE_2G : Nat := 0x00
def ACCEL_RANGE_4G : Nat := 0x08
def ACCEL_RANGE_8G : Nat := 0x10
def ACCEL_RANGE_16G : Nat := 0x18

def GYRO_RANGE_250DEG : Nat := 0x00
def GYRO_RANGE_500DEG : Nat := 0x08
def GYRO_RANGE_1000DEG : Nat := 0x10
def GYRO_RANGE_2000DEG : Nat := 0x18

def PWR_MGMT_1 : Nat := 0x6B
def PWR1_DEVICE_RESET_BIT : Nat := 7
def PWR1_TEMP_DIS_BIT : Nat := 3

def ACCEL_XOUT0 : Nat := 0x3B
def ACCEL_YOUT0 : Nat := 0x3D
def ACCEL_ZOUT0 : Nat := 0x3F

def TEMP_OUT0 : Nat := 0x41

def GYRO_XOUT0 : Nat := 0x43
def GYRO_YOUT0 : Nat := 0x45
def GYRO_ZOUT0 : Nat := 0x47

def ACCEL_CONFIG : Nat := 0x1C
def GYRO_CONFIG : Nat := 0x1B

-- I2C communication methods (bus transaction layer, source lines 131-198).

/-- read_i2c_byte(register): bus.read_byte_data(self.address, register),
a single byte read from the register file. -/
def read_i2c_byte (regs : Nat → Nat) (register : Nat) : Nat :=
  regs register

/-- read_i2c_bit(register, bitNum): returns data & (1 << bitNum).  The Python
function returns this masked integer (0 or 2 ^ bitNum), not a bool. -/
def read_i2c_bit (regs : Nat → Nat) (register bitNum : Nat) : Nat :=
  read_i2c_byte regs register &&& (1 <<< bitNum)

/-- Python x & ~m on nonnegative ints: clear in x every bit set in m.
Computed as x ^^^ (x &&& m), which agrees with Nat.ldiff x m
(lemma andNot_eq_ldiff below). -/
def andNot (x m : Nat) : Nat := x ^^^ (x &&& m)

/-- read_i2c_bits(register, bitStart, length): the body is guarded by
if data != 0; when the freshly read byte is 0 the function falls off the end
and Python returns None, modelled as none.  The Python shift amount
bitStart - length + 1 is written bitStart + 1 - length so that, on the valid
parameter range of the contract (length at most bitStart + 1), the Nat
subtraction agrees with the Python integer expression even when the
intermediate bitStart - length is -1. -/
def read_i2c_bits (regs : Nat → Nat) (register bitStart length : Nat) :
    Option Nat :=
  let data := read_i2c_byte regs register
  if data ≠ 0 then
    let mask := ((1 <<< length) - 1) <<< (bitStart + 1 - length)
    some ((data &&& mask) >>> (bitStart + 1 - length))
  else
    none

/-- read_i2c_word on the two bytes read from register and register + 1:
value = (high << 8) + low; if value >= 0x8000 the source returns
-((65535 - value) + 1), otherwise value. -/
def read_i2c_word (high low : Nat) : Int :=
  let value := (high <<< 8) + low
  if value ≥ 0x8000 then -(((65535 : Int) - (value : Int)) + 1)
  else (value : Int)

/-- read_i2c_word(register) against the register file: high byte at register,
low byte at register + 1. -/
def read_i2c_word_at (regs : Nat → Nat) (register : Nat) : Int :=
  read_i2c_word (regs register) (regs (register + 1))

/-- write_i2c_bit(register, bitNum, value): returns the byte that the method
writes back to register.  The source never consults value: when the byte read
is nonzero it executes data = data | (1 << bitNum), and when the byte is zero
it executes data = data & ~(1 << bitNum) (andNot models Python x & ~m on
nonnegative x). -/
def write_i2c_bit (regs : Nat → Nat) (register bitNum : Nat) (value : Bool) :
    Nat :=
  let data := read_i2c_byte regs register
  if data ≠ 0 then data ||| (1 <<< bitNum)
  else andNot data (1 <<< bitNum)

/-- write_i2c_bits(register, bitStart, length, data) on a device at address:
the source reads b = self.read_i2c_byte(self.address), i.e. from the register
whose number equals the DEVICE address, not from register; and the whole
modify-and-write body is guarded by if data != 0, so when data == 0 no bus
write happens at all (Python returns None).  Result: some (register, byte)
for the write performed, none when nothing is written. -/
def write_i2c_bits (address : Nat) (regs : Nat → Nat)
    (register bitStart length data : Nat) : Option (Nat × Nat) :=
  let b := read_i2c_byte regs address
  if data ≠ 0 then
    let mask := ((1 <<< length) - 1) <<< (bitStart + 1 - length)
    let data1 := (data <<< (bitStart + 1 - length)) &&& mask
    some (register, andNot b mask ||| data1)
  else
    none

/-- bus.write_byte_data(address, register, value) as a register-file update. -/
def write_byte_data (regs : Nat → Nat) (register value : Nat) : Nat → Nat :=
  fun r => if r = register then value else regs r

-- MPU-6050 methods (sensor model layer, source lines 203-464).

/-- set_accel_range(accel_range): two bus writes to ACCEL_CONFIG, first 0x00,
then accel_range; the result is the register file after both. -/
def set_accel_range (regs : Nat → Nat) (accel_range : Nat) : Nat → Nat :=
  write_byte_data (write_byte_data regs ACCEL_CONFIG 0x00) ACCEL_CONFIG
    accel_range

/-- set_gyro_range(gyro_range): same shape against GYRO_CONFIG. -/
def set_gyro_range (regs : Nat → Nat) (gyro_range : Nat) : Nat → Nat :=
  write_byte_data (write_byte_data regs GYRO_CONFIG 0x00) GYRO_CONFIG
    gyro_range

/-- read_accel_range(raw): reads ACCEL_CONFIG, then branches on raw is True /
raw is False (identity with the bool singletons).  When raw is neither bool
literal the function falls off the end: Python returns None. -/
def read_accel_range (regs : Nat → Nat) (raw : PyVal) : Option Int :=
  let raw_data := regs ACCEL_CONFIG
  if raw = PyVal.pyBool true then some (raw_data : Int)
  else if raw = PyVal.pyBool false then
    if raw_data = ACCEL_RANGE_2G then some 2
    else if raw_data = ACCEL_RANGE_4G then some 4
    else if raw_data = ACCEL_RANGE_8G then some 8
    else if raw_data = ACCEL_RANGE_16G then some 16
    else some (-1)
  else none

/-- read_gyro_range(raw): reads GYRO_CONFIG, same branch structure as
read_accel_range. -/
def read_gyro_range (regs : Nat → Nat) (raw : PyVal) : Option Int :=
  let raw_data := regs GYRO_CONFIG
  if raw = PyVal.pyBool true then some (raw_data : Int)
  else if raw = PyVal.pyBool false then
    if raw_data = GYRO_RANGE_250DEG then some 250
    else if raw_data = GYRO_RANGE_500DEG then some 500
    else if raw_data = GYRO_RANGE_1000DEG then some 1000
    else if raw_data = GYRO_RANGE_2000DEG then some 2000
    else some (-1)
  else none

/-- The dictionary \x7bx, y, z\x7d returned by the sample getters, together
with whether the unknown-range diagnostic was printed on the way. -/
structure XYZ where
  diag : Bool
  x : Rat
  y : Rat
  z : Rat
deriving DecidableEq

/-- get_accel_data(g): reads the three words (bytes at ACCEL_XOUT0, +1,
ACCEL_YOUT0, +1, ACCEL_ZOUT0, +1), then the config byte via
read_accel_range(True); selects the scale modifier, falling back to
ACCEL_SCALE_MODIFIER_2G with a printed diagnostic on an unrecognized byte;
divides; then branches on g is True / g is False (multiplying by GRAVITIY_MS2
in the False branch) and returns None for any other g.  The second component
is the ordered list of register numbers read from the bus, all of which are
read before the g branch. -/
def get_accel_data (regs : Nat → Nat) (g : PyVal) :
    Option XYZ × List Nat :=
  let x := read_i2c_word_at regs ACCEL_XOUT0
  let y := read_i2c_word_at regs ACCEL_YOUT0
  let z := read_i2c_word_at regs ACCEL_ZOUT0
  let accel_range := read_accel_range regs (PyVal.pyBool true)
  let reads := [ACCEL_XOUT0, ACCEL_XOUT0 + 1, ACCEL_YOUT0, ACCEL_YOUT0 + 1,
    ACCEL_ZOUT0, ACCEL_ZOUT0 + 1, ACCEL_CONFIG]
  let m : Bool × Rat :=
    if accel_range = some ((ACCEL_RANGE_2G : Nat) : Int) then
      (false, ACCEL_SCALE_MODIFIER_2G)
    else if accel_range = some ((ACCEL_RANGE_4G : Nat) : Int) then
      (false, ACCEL_SCALE_MODIFIER_4G)
    else if accel_range = some ((ACCEL_RANGE_8G : Nat) : Int) then
      (false, ACCEL_SCALE_MODIFIER_8G)
    else if accel_range = some ((ACCEL_RANGE_16G : Nat) : Int) then
      (false, ACCEL_SCALE_MODIFIER_16G)
    else
      (true, ACCEL_SCALE_MODIFIER_2G)
  let xs := (x : Rat) / m.2
  let ys := (y : Rat) / m.2
  let zs := (z : Rat) / m.2
  if g = PyVal.pyBool true then (some ⟨m.1, xs, ys, zs⟩, reads)
  else if g = PyVal.pyBool false then
    (some ⟨m.1, xs * GRAVITIY_MS2, ys * GRAVITIY_MS2, zs * GRAVITIY_MS2⟩,
      reads)
  else (none, reads)

/-- get_gyro_data(): reads the three gyro words, then the config byte via
read_gyro_range(True); selects the modifier, falling back to
GYRO_SCALE_MODIFIER_250DEG with a printed diagnostic on an unrecognized byte;
divides and returns the dictionary unconditionally. -/
def get_gyro_data (regs : Nat → Nat) : XYZ :=
  let x := read_i2c_word_at regs GYRO_XOUT0
  let y := read_i2c_word_at regs GYRO_YOUT0
  let z := read_i2c_word_at regs GYRO_ZOUT0
  let gyro_range := read_gyro_range regs (PyVal.pyBool true)
  let m : Bool × Rat :=
    if gyro_range = some ((GYRO_RANGE_250DEG : Nat) : Int) then
      (false, GYRO_SCALE_MODIFIER_250DEG)
    else if gyro_range = some ((GYRO_RANGE_500DEG : Nat) : Int) then
      (false, GYRO_SCALE_MODIFIER_500DEG)
    else if gyro_range = some ((GYRO_RANGE_1000DEG : Nat) : Int) then
      (false, GYRO_SCALE_MODIFIER_1000DEG)
    else if gyro_range = some ((GYRO_RANGE_2000DEG : Nat) : Int) then
      (false, GYRO_SCALE_MODIFIER_2000DEG)
    else
      (true, GYRO_SCALE_MODIFIER_250DEG)
  ⟨m.1, (x : Rat) / m.2, (y : Rat) / m.2, (z : Rat) / m.2⟩

/-- reset(): the ordered list of (register, value) bus writes the method
performs.  The body is the single write
bus.write_byte_data(address, PWR_MGMT_1, 0x01) with no delay and no other
bus operation. -/
def reset_writes : List (Nat × Nat) :=
  [(PWR_MGMT_1, 0x01)]

-- The PWR_MGMT_1 accessors (source lines 414-464).  Several of them raise at
-- runtime: their bodies reference class attributes that do not exist, or call
-- a 3-parameter method with 4 positional arguments.  Each is modelled as an
-- Except value: error is the raised Python exception, ok the returned value.

/-- get_sleep_enabled(): return self.read_i2c_bit(PWR_MGMT_1,
self.PWR_1_SLEEP_BIT).  The class defines PWR1_DEVICE_SLEEP_BIT, not
PWR_1_SLEEP_BIT, so evaluating the second argument raises AttributeError
before any bus access. -/
def get_sleep_enabled (regs : Nat → Nat) : Except PyError Nat :=
  match pwr1Attr AttrName.PWR_1_SLEEP_BIT with
  | none => Except.error (PyError.attributeError AttrName.PWR_1_SLEEP_BIT)
  | some b => Except.ok (read_i2c_bit regs PWR_MGMT_1 b)

/-- set_sleep_enabled(enabled): self.write_i2c_bit(self.address,
self.PWR_MGMT_1, self.PWR1_SLEEP_BIT, enabled).  The class defines
PWR1_DEVICE_SLEEP_BIT, not PWR1_SLEEP_BIT: AttributeError while evaluating
the arguments.  (Even with the name fixed, the call passes 4 positional
arguments to the 3-parameter write_i2c_bit: TypeError.) -/
def set_sleep_enabled (enabled : Bool) : Except PyError Unit :=
  match pwr1Attr AttrName.PWR1_SLEEP_BIT with
  | none => Except.error (PyError.attributeError AttrName.PWR1_SLEEP_BIT)
  | some _ => Except.error (PyError.typeError 4 3)

/-- get_wake_cycle_enabled(): return self.read_i2c_bit(PWR_MGMT_1,
self.PWR_1_CYCLE_BIT).  The class defines PWR1_CYCLE_BIT, not
PWR_1_CYCLE_BIT: AttributeError before any bus access. -/
def get_wake_cycle_enabled (regs : Nat → Nat) : Except PyError Nat :=
  match pwr1Attr AttrName.PWR_1_CYCLE_BIT with
  | none => Except.error (PyError.attributeError AttrName.PWR_1_CYCLE_BIT)
  | some b => Except.ok (read_i2c_bit regs PWR_MGMT_1 b)

/-- set_wake_cycle_enabled(enabled): self.write_i2c_bit(self.address,
self.PWR_MGMT_1, self.PWR_1_CYCLE_BIT, enabled).  PWR_1_CYCLE_BIT is not
defined: AttributeError (and the call would also pass 4 arguments to the
3-parameter write_i2c_bit). -/
def set_wake_cycle_enabled (enabled : Bool) : Except PyError Unit :=
  match pwr1Attr AttrName.PWR_1_CYCLE_BIT with
  | none => Except.error (PyError.attributeError AttrName.PWR_1_CYCLE_BIT)
  | some _ => Except.error (PyError.typeError 4 3)

/-- get_temp_sensor_enabled(): return read_i2c_bit(PWR_MGMT_1,
PWR1_TEMP_DIS_BIT) == 0.  The attribute exists (value 3) and the call has the
right arity, so this accessor works: it returns True exactly when the disable
bit reads 0. -/
def get_temp_sensor_enabled (regs : Nat → Nat) : Bool :=
  read_i2c_bit regs PWR_MGMT_1 PWR1_TEMP_DIS_BIT == 0

/-- set_temp_sensor_enabled(enabled): self.write_i2c_bit(self.address,
self.PWR_MGMT_1, self.PWR_1_TEMP_DIS_BIT, ~enabled).  The class defines
PWR1_TEMP_DIS_BIT, not PWR_1_TEMP_DIS_BIT: AttributeError while evaluating
the arguments, so no bus write ever happens.  (The call would also pass 4
positional arguments to the 3-parameter write_i2c_bit.) -/
def set_temp_sensor_enabled (enabled : Bool) : Except PyError Unit :=
  match pwr1Attr AttrName.PWR_1_TEMP_DIS_BIT with
  | none => Except.error (PyError.attributeError AttrName.PWR_1_TEMP_DIS_BIT)
  | some _ => Except.error (PyError.typeError 4 3)

/-- read_i2c_bits is declared def read_i2c_bits(self, register, bitStart,
length): 3 parameters besides self. -/
def read_i2c_bits_arity : Nat := 3

/-- get_clock_source(): return self.read_i2c_bits(self.address,
self.PWR_MGMT_1, self.PWR1_CLKSEL_BIT, self.PWR1_CLKSEL_LENGTH).  Both
attributes exist (2 and 3), but the call passes 4 positional arguments to the
3-parameter read_i2c_bits, so Python raises TypeError before the body runs.
The ok branch is dead: 4 is not equal to read_i2c_bits_arity. -/
def get_clock_source : Except PyError Nat :=
  if 4 = read_i2c_bits_arity then Except.ok 0
  else Except.error (PyError.typeError 4 3)

-- Helper lemmas shared by the claim theorems.

theorem read_accel_range_raw_true (regs : Nat → Nat) :
    read_accel_range regs (PyVal.pyBool true) =
      some ((regs ACCEL_CONFIG : Nat) : Int) := rfl

theorem read_gyro_range_raw_true (regs : Nat → Nat) :
    read_gyro_range regs (PyVal.pyBool true) =
      some ((regs GYRO_CONFIG : Nat) : Int) := rfl

theorem andNot_eq_ldiff (x m : Nat) : andNot x m = Nat.ldiff x m := by
  unfold andNot
  apply Nat.eq_of_testBit_eq
  intro i
  simp only [Nat.testBit_xor, Nat.testBit_and, Nat.testBit_ldiff]
  cases x.testBit i <;> cases m.testBit i <;> rfl

theorem and_one_shiftLeft_eq_zero (x n : Nat) :
    (x &&& (1 <<< n) = 0) ↔ x.testBit n = false := by
  rw [Nat.one_shiftLeft, Nat.and_two_pow]
  cases hb : x.testBit n <;> simp [hb, (Nat.two_pow_pos n).ne']

-- Claim theorems.

/-- Claim C1: for every pair of bytes (high, low), read_i2c_word returns the
twos-complement signed reinterpretation of (high << 8) + low: values below
0x8000 map to themselves, values at or above 0x8000 map to value - 65536, and
the boundary words 0x7FFF, 0x8000 and 0xFFFF map to 32767, -32768 and -1. -/
theorem read_i2c_word_twos_complement :
    (∀ high low : Nat,
      read_i2c_word high low =
        if (high <<< 8) + low < 0x8000 then (((high <<< 8) + low : Nat) : Int)
        else (((high <<< 8) + low : Nat) : Int) - 65536) ∧
    read_i2c_word 0x7F 0xFF = 32767 ∧
    read_i2c_word 0x80 0x00 = -32768 ∧
    read_i2c_word 0xFF 0xFF = -1 := by
  refine ⟨fun high low => ?_, by decide, by decide, by decide⟩
  simp only [read_i2c_word]
  generalize (high <<< 8) + low = v
  split <;> split <;> omega

/-- Claim C2 is false of the code: read_i2c_bits special-cases a zero byte.
Reading a register whose byte is 0x00 returns none (Python None), not the
extracted field 0; for a nonzero byte the masked extraction of the claim is
performed.  The third conjunct characterizes the function completely. -/
theorem read_i2c_bits_zero_byte_returns_none :
    read_i2c_bits (fun _ => 0) PWR_MGMT_1 2 3 = none ∧
    read_i2c_bits (fun _ => 0x24) PWR_MGMT_1 2 3 = some 4 ∧
    (∀ (regs : Nat → Nat) (register bitStart length : Nat),
      read_i2c_bits regs register bitStart length =
        if regs register = 0 then none
        else some ((regs register &&&
          (((1 <<< length) - 1) <<< (bitStart + 1 - length))) >>>
          (bitStart + 1 - length))) := by
  refine ⟨by decide, by decide, fun regs register bitStart length => ?_⟩
  by_cases h : regs register = 0 <;>
    simp [read_i2c_bits, read_i2c_byte, h]

/-- Claim C3 is false of the code: write_i2c_bit ignores its value argument
entirely (last conjunct), so it cannot set the bit to the requested value.
With the register byte 0x00 and value = true it writes back 0x00 with the
target bit still clear, and with the byte 0x01 and value = false it writes
back 0x01 with the target bit still set. -/
theorem write_i2c_bit_ignores_value :
    write_i2c_bit (fun _ => 0) PWR_MGMT_1 0 true = 0 ∧
    Nat.testBit (write_i2c_bit (fun _ => 0) PWR_MGMT_1 0 true) 0 = false ∧
    write_i2c_bit (fun _ => 1) PWR_MGMT_1 0 false = 1 ∧
    Nat.testBit (write_i2c_bit (fun _ => 1) PWR_MGMT_1 0 false) 0 = true ∧
    (∀ (regs : Nat → Nat) (register bitNum : Nat) (v w : Bool),
      write_i2c_bit regs register bitNum v =
        write_i2c_bit regs register bitNum w) :=
  ⟨by decide, by decide, by decide, by decide, fun _ _ _ _ _ => rfl⟩

/-- Claim C4 is false of the code: write_i2c_bits reads the byte to modify
from the register whose number equals the DEVICE address (0x68 here), not
from the target register, so the bits outside the field come from the wrong
byte: with PWR_MGMT_1 holding 0xFF it writes 0x05 (field 5 ORed into the
byte 0x00 read at register 0x68) instead of 0xFD.  And with data = 0 it
performs no write at all. -/
theorem write_i2c_bits_wrong_register_and_skips_zero :
    write_i2c_bits 0x68 (fun r => if r = PWR_MGMT_1 then 0xFF else 0)
      PWR_MGMT_1 2 3 5 = some (PWR_MGMT_1, 5) ∧
    write_i2c_bits 0x68 (fun r => if r = PWR_MGMT_1 then 0xFF else 0)
      PWR_MGMT_1 2 3 5 ≠ some (PWR_MGMT_1, 0xFD) ∧
    write_i2c_bits 0x68 (fun r => if r = PWR_MGMT_1 then 0xFF else 0)
      PWR_MGMT_1 2 3 0 = none := by
  refine ⟨by decide, by decide, by decide⟩

/-- Claim C5 is false of the code: reset() performs exactly one bus write,
with no delay, but the byte written to PWR_MGMT_1 is 0x01, in which the
device-reset bit 7 is CLEAR (bit 0, the low CLKSEL bit, is set instead). -/
theorem reset_writes_bit7_clear :
    reset_writes = [(PWR_MGMT_1, 0x01)] ∧
    reset_writes.length = 1 ∧
    Nat.testBit 0x01 PWR1_DEVICE_RESET_BIT = false ∧
    Nat.testBit 0x01 0 = true := by decide

/-- Claim C6 is false of the code: none of the five accessors ever touches
the designated bit or field of PWR_MGMT_1.  The four sleep/cycle accessors
raise AttributeError (their bodies reference the undefined class attributes
PWR_1_SLEEP_BIT, PWR1_SLEEP_BIT and PWR_1_CYCLE_BIT), and get_clock_source
raises TypeError (it passes 4 positional arguments to the 3-parameter
read_i2c_bits). -/
theorem pwr_mgmt_accessors_raise :
    (∀ regs : Nat → Nat, get_sleep_enabled regs =
      Except.error (PyError.attributeError AttrName.PWR_1_SLEEP_BIT)) ∧
    (∀ e : Bool, set_sleep_enabled e =
      Except.error (PyError.attributeError AttrName.PWR1_SLEEP_BIT)) ∧
    (∀ regs : Nat → Nat, get_wake_cycle_enabled regs =
      Except.error (PyError.attributeError AttrName.PWR_1_CYCLE_BIT)) ∧
    (∀ e : Bool, set_wake_cycle_enabled e =
      Except.error (PyError.attributeError AttrName.PWR_1_CYCLE_BIT)) ∧
    get_clock_source = Except.error (PyError.typeError 4 3) :=
  ⟨fun _ => rfl, fun _ => rfl, fun _ => rfl, fun _ => rfl, rfl⟩

/-- Claim C7 is half true of the code: get_temp_sensor_enabled correctly
returns true exactly when the disable bit (bit 3 of PWR_MGMT_1) is 0, but
set_temp_sensor_enabled always raises AttributeError (its body references
the undefined attribute PWR_1_TEMP_DIS_BIT; the class defines
PWR1_TEMP_DIS_BIT), so no write ever reaches the register. -/
theorem temp_sensor_get_inverts_set_raises :
    (∀ regs : Nat → Nat,
      get_temp_sensor_enabled regs =
        !(regs PWR_MGMT_1).testBit PWR1_TEMP_DIS_BIT) ∧
    (∀ e : Bool, set_temp_sensor_enabled e =
      Except.error (PyError.attributeError AttrName.PWR_1_TEMP_DIS_BIT)) := by
  refine ⟨fun regs => ?_, fun _ => rfl⟩
  unfold get_temp_sensor_enabled read_i2c_bit read_i2c_byte
  rw [Nat.one_shiftLeft, Nat.and_two_pow]
  cases hb : (regs PWR_MGMT_1).testBit PWR1_TEMP_DIS_BIT <;> simp [hb]

/-- Claim C8: for each of the four pre-defined ranges X, set_accel_range(X)
followed by read_accel_range(raw=True) returns the raw byte X, and
read_accel_range(raw=False) returns the documented numeric range 2, 4, 8 or
16; and for any config byte outside the four known values,
read_accel_range(raw=False) returns -1. -/
theorem accel_range_roundtrip (regs : Nat → Nat) (X : Nat)
    (hX : X = ACCEL_RANGE_2G ∨ X = ACCEL_RANGE_4G ∨ X = ACCEL_RANGE_8G ∨
      X = ACCEL_RANGE_16G) :
    read_accel_range (set_accel_range regs X) (PyVal.pyBool true) =
      some ((X : Nat) : Int) ∧
    read_accel_range (set_accel_range regs X) (PyVal.pyBool false) =
      some (if X = ACCEL_RANGE_2G then 2 else if X = ACCEL_RANGE_4G then 4
        else if X = ACCEL_RANGE_8G then 8 else 16) ∧
    (∀ regs2 : Nat → Nat,
      regs2 ACCEL_CONFIG ≠ ACCEL_RANGE_2G →
      regs2 ACCEL_CONFIG ≠ ACCEL_RANGE_4G →
      regs2 ACCEL_CONFIG ≠ ACCEL_RANGE_8G →
      regs2 ACCEL_CONFIG ≠ ACCEL_RANGE_16G →
      read_accel_range regs2 (PyVal.pyBool false) = some (-1)) := by
  refine ⟨?_, ?_, fun regs2 h0 h1 h2 h3 => ?_⟩
  · rcases hX with h | h | h | h <;> subst h <;> rfl
  · rcases hX with h | h | h | h <;> subst h <;> rfl
  · simp [read_accel_range, h0, h1, h2, h3]

/-- Witness for C8 at X = ACCEL_RANGE_8G over the all-zero register file. -/
theorem accel_range_roundtrip_witness :
    read_accel_range (set_accel_range (fun _ => 0) ACCEL_RANGE_8G)
      (PyVal.pyBool true) = some ((ACCEL_RANGE_8G : Nat) : Int) ∧
    read_accel_range (set_accel_range (fun _ => 0) ACCEL_RANGE_8G)
      (PyVal.pyBool false) = some 8 := by
  have h := accel_range_roundtrip (fun _ => 0) ACCEL_RANGE_8G (by decide)
  exact ⟨h.1, h.2.1.trans (by decide)⟩

/-- Claim C9: on an unrecognized accel-config byte get_accel_data does not
fail: it selects the 2G fallback modifier 16384, records the diagnostic, and
still returns the scaled sample; symmetrically get_gyro_data falls back to
the 250 deg per second modifier 131. -/
theorem unknown_range_fallback (regs : Nat → Nat)
    (ha0 : regs ACCEL_CONFIG ≠ ACCEL_RANGE_2G)
    (ha1 : regs ACCEL_CONFIG ≠ ACCEL_RANGE_4G)
    (ha2 : regs ACCEL_CONFIG ≠ ACCEL_RANGE_8G)
    (ha3 : regs ACCEL_CONFIG ≠ ACCEL_RANGE_16G)
    (hg0 : regs GYRO_CONFIG ≠ GYRO_RANGE_250DEG)
    (hg1 : regs GYRO_CONFIG ≠ GYRO_RANGE_500DEG)
    (hg2 : regs GYRO_CONFIG ≠ GYRO_RANGE_1000DEG)
    (hg3 : regs GYRO_CONFIG ≠ GYRO_RANGE_2000DEG) :
    (get_accel_data regs (PyVal.pyBool true)).1 =
      some ⟨true,
        (read_i2c_word_at regs ACCEL_XOUT0 : Rat) / ACCEL_SCALE_MODIFIER_2G,
        (read_i2c_word_at regs ACCEL_YOUT0 : Rat) / ACCEL_SCALE_MODIFIER_2G,
        (read_i2c_word_at regs ACCEL_ZOUT0 : Rat) /
          ACCEL_SCALE_MODIFIER_2G⟩ ∧
    get_gyro_data regs =
      ⟨true,
        (read_i2c_word_at regs GYRO_XOUT0 : Rat) / GYRO_SCALE_MODIFIER_250DEG,
        (read_i2c_word_at regs GYRO_YOUT0 : Rat) / GYRO_SCALE_MODIFIER_250DEG,
        (read_i2c_word_at regs GYRO_ZOUT0 : Rat) /
          GYRO_SCALE_MODIFIER_250DEG⟩ := by
  constructor
  · simp only [get_accel_data, read_accel_range_raw_true, Option.some.injEq,
      Nat.cast_inj]
    simp [ha0, ha1, ha2, ha3]
  · simp only [get_gyro_data, read_gyro_range_raw_true, Option.some.injEq,
      Nat.cast_inj]
    simp [hg0, hg1, hg2, hg3]

/-- Witness for C9 over the constant register file holding byte 1 everywhere
(1 is not a recognized accel or gyro range byte). -/
theorem unknown_range_fallback_witness :
    (get_accel_data (fun _ => 1) (PyVal.pyBool true)).1 =
      some ⟨true,
        (read_i2c_word_at (fun _ => 1) ACCEL_XOUT0 : Rat) /
          ACCEL_SCALE_MODIFIER_2G,
        (read_i2c_word_at (fun _ => 1) ACCEL_YOUT0 : Rat) /
          ACCEL_SCALE_MODIFIER_2G,
        (read_i2c_word_at (fun _ => 1) ACCEL_ZOUT0 : Rat) /
          ACCEL_SCALE_MODIFIER_2G⟩ :=
  (unknown_range_fallback (fun _ => 1) (by decide) (by decide) (by decide)
    (by decide) (by decide) (by decide) (by decide) (by decide)).1

/-- Claim C10: the flag parameters are compared by identity with the bool
literals, so any non-bool argument (such as the int 1) makes
read_accel_range and read_gyro_range return None, and makes get_accel_data
return None after having performed all six measurement byte reads and the
config read. -/
theorem bool_flags_identity (v : PyVal)
    (hv : ∀ b : Bool, v ≠ PyVal.pyBool b) :
    (∀ regs : Nat → Nat, read_accel_range regs v = none) ∧
    (∀ regs : Nat → Nat, read_gyro_range regs v = none) ∧
    (∀ regs : Nat → Nat, get_accel_data regs v =
      (none, [ACCEL_XOUT0, ACCEL_XOUT0 + 1, ACCEL_YOUT0, ACCEL_YOUT0 + 1,
        ACCEL_ZOUT0, ACCEL_ZOUT0 + 1, ACCEL_CONFIG])) := by
  have h1 := hv true
  have h2 := hv false
  refine ⟨fun regs => ?_, fun regs => ?_, fun regs => ?_⟩ <;>
    simp [read_accel_range, read_gyro_range, get_accel_data, h1, h2]

/-- Witness for C10 at the Python int 1 (truthy, equal to True under ==, but
not identical to it). -/
theorem bool_flags_identity_witness :
    get_accel_data (fun _ => 0) (PyVal.pyInt 1) =
      (none, [ACCEL_XOUT0, ACCEL_XOUT0 + 1, ACCEL_YOUT0, ACCEL_YOUT0 + 1,
        ACCEL_ZOUT0, ACCEL_ZOUT0 + 1, ACCEL_CONFIG]) :=
  (bool_flags_identity (PyVal.pyInt 1)
    (by intro b; cases b <;> simp)).2.2 (fun _ => 0)

end mpu6050
